import Mathlib

/-!
Shallow embedding of `media/libstagefright/codec2/vndk/C2Buffer.cpp`
(the ION-backed codec2 linear allocation, allocator, block and view layer).

Pointers are modelled as natural numbers (0 plays the role of the null
pointer where the code only does pointer arithmetic); OS calls
(`ion_open`, `ion_alloc`, `ion_import`, `ion_map`, `mmap`, `munmap`)
are modelled by explicit outcome parameters supplied to each operation,
so every function is a pure state transformer that also reports which
driver/OS calls it made and with which request.
-/

/-- The codec2 domain error set (`C2Error`).  The constructor `raw` stands
for a nonzero OS status value stored directly into a `C2Error`-typed field,
as the import constructor of `C2AllocationIon::Impl` does
(`mInit = ion_import(...)`). -/
inductive C2Error where
  | ok
  | badValue
  | noMemory
  | noPermission
  | timedOut
  | unsupported
  | corrupted
  | raw (v : Int)
deriving DecidableEq, Repr

/-- Linux errno constant `EPERM`. -/
def EPERM : Nat := 1
/-- Linux errno constant `ENOENT`. -/
def ENOENT : Nat := 2
/-- Linux errno constant `ENOMEM`. -/
def ENOMEM : Nat := 12
/-- Linux errno constant `EACCES`. -/
def EACCES : Nat := 13
/-- Linux errno constant `EINVAL`. -/
def EINVAL : Nat := 22

/-- The fixed errno-to-error table `_c2_errno2error_impl` of C2Buffer.cpp:
0 maps to Ok, EINVAL to BadValue, EACCES and EPERM to NoPermission,
ENOMEM to NoMemory.  (In the C++ source this is a set of template
specializations; instantiation at any other errno would not compile, so
the final branch is unreachable in the uses below.) -/
def c2_errno2error (e : Nat) : C2Error :=
  if e = 0 then C2Error.ok
  else if e = EINVAL then C2Error.badValue
  else if e = EACCES then C2Error.noPermission
  else if e = EPERM then C2Error.noPermission
  else if e = ENOMEM then C2Error.noMemory
  else C2Error.corrupted

/-- `c2_map_errno<N...>(result)`: walk the template pack, returning the
table entry of the first pack element equal to `result`; when the pack is
exhausted, 0 maps to Ok and any other value to Corrupted. -/
def c2_map_errno : List Nat → Int → C2Error
  | [], result => if result = 0 then C2Error.ok else C2Error.corrupted
  | e :: rest, result =>
      if result = (e : Int) then c2_errno2error e else c2_map_errno rest result

/-- The fixed-layout fields of a candidate `C2Handle` memory block as read
by `C2HandleIon::isValid`: the three header words compared by `memcmp`
against `cHeader`, the two descriptor slots and the single integer slot
(the magic).  A null handle pointer is modelled by `Option.none` at use
sites. -/
structure C2HandleMem where
  version : Nat
  numFds : Nat
  numInts : Nat
  fd0 : Int
  fd1 : Int
  int0 : Int
deriving DecidableEq, Repr

/-- `C2HandleIon::kMagic`, the multi-character literal `ion1`. -/
def kMagic : Int := 0x696F6E31
/-- `C2HandleIon::version` = sizeof(C2Handle) + sizeof(mFds) + sizeof(mInts)
= 12 + 8 + 4 bytes. -/
def ionVersion : Nat := 24
/-- `C2HandleIon::numFds` (two descriptor slots: ion fd and buffer id). -/
def ionNumFds : Nat := 2
/-- `C2HandleIon::numInts` (one integer slot: the magic). -/
def ionNumInts : Nat := 1

/-- `C2HandleIon::isValid`: reject a null pointer, any handle whose fixed
header bytes differ from `cHeader` (memcmp), and any handle whose magic
integer differs from `kMagic`. -/
def C2HandleIon.isValid : Option C2HandleMem → Bool
  | none => false
  | some h =>
      h.version = ionVersion && h.numFds = ionNumFds &&
      h.numInts = ionNumInts && h.int0 = kMagic

/-- Page granularity of the backing store (`PAGE_SIZE`). -/
def PAGE_SIZE : Nat := 4096
/-- `PROT_READ`. -/
def PROT_READ : Nat := 1
/-- `PROT_WRITE`. -/
def PROT_WRITE : Nat := 2
/-- `MAP_SHARED`. -/
def MAP_SHARED : Nat := 1
/-- `MAP_PRIVATE`. -/
def MAP_PRIVATE : Nat := 2
/-- `GRALLOC_USAGE_SW_READ_MASK`. -/
def GRALLOC_USAGE_SW_READ_MASK : Nat := 0xF
/-- `GRALLOC_USAGE_SW_WRITE_MASK`. -/
def GRALLOC_USAGE_SW_WRITE_MASK : Nat := 0xF0

/-- Memory usage hint bitmask pair (`C2MemoryUsage`). -/
structure C2MemoryUsage where
  mConsumer : Nat
  mProducer : Nat
deriving DecidableEq, Repr

/-- `C2MemoryUsage::kSoftwareRead` (GRALLOC_USAGE_SW_READ_OFTEN). -/
def C2MemoryUsage.kSoftwareRead : Nat := 0x3
/-- `C2MemoryUsage::kSoftwareWrite` (GRALLOC_USAGE_SW_WRITE_OFTEN). -/
def C2MemoryUsage.kSoftwareWrite : Nat := 0x30

/-- State of `C2AllocationIon::Impl`: init status, the two handle slots
(ion fd and buffer id), the recorded mapping (map fd, address, alignment
padding, mapped size) and the capacity.  Address 0 stands for the null
pointer. -/
structure C2AllocationIonImpl where
  mInit : C2Error
  ionFd : Int
  buffer : Int
  mMapFd : Int
  mMapAddr : Nat
  mMapAlignmentBytes : Nat
  mMapSize : Nat
  mCapacity : Nat
deriving DecidableEq, Repr

/-- Outcome of an `ion_alloc` driver call: return code and allocated
buffer id. -/
structure IonAllocOutcome where
  ret : Int
  buffer : Int
deriving DecidableEq, Repr

/-- Outcome of an `ion_import` driver call. -/
structure IonImportOutcome where
  ret : Int
  buffer : Int
deriving DecidableEq, Repr

/-- The allocating constructor `C2AllocationIon::Impl::Impl(ionFd, capacity,
align, heapMask, flags)`: calls `ion_alloc`; on success records the buffer,
on failure maps `-ret` through `c2_map_errno<ENOMEM, EACCES, EINVAL>`.
The align/heapMask/flags arguments only parameterize the driver call and
are absorbed into the supplied outcome. -/
def C2AllocationIonImpl.constructAlloc (ionFd : Int) (capacity : Nat)
    (o : IonAllocOutcome) : C2AllocationIonImpl :=
  if o.ret = 0 then
    { mInit := C2Error.ok, ionFd := ionFd, buffer := o.buffer, mMapFd := -1,
      mMapAddr := 0, mMapAlignmentBytes := 0, mMapSize := 0, mCapacity := capacity }
  else
    { mInit := c2_map_errno [ENOMEM, EACCES, EINVAL] (-o.ret), ionFd := ionFd,
      buffer := -1, mMapFd := -1, mMapAddr := 0, mMapAlignmentBytes := 0,
      mMapSize := 0, mCapacity := capacity }

/-- The importing constructor `C2AllocationIon::Impl::Impl(ionFd, capacity,
shareFd)`: stores the raw `ion_import` return value in `mInit` and records
the buffer only when it is 0. -/
def C2AllocationIonImpl.constructImport (ionFd : Int) (capacity : Nat)
    (o : IonImportOutcome) : C2AllocationIonImpl :=
  if o.ret = 0 then
    { mInit := C2Error.ok, ionFd := ionFd, buffer := o.buffer, mMapFd := -1,
      mMapAddr := 0, mMapAlignmentBytes := 0, mMapSize := 0, mCapacity := capacity }
  else
    { mInit := C2Error.raw o.ret, ionFd := ionFd, buffer := -1, mMapFd := -1,
      mMapAddr := 0, mMapAlignmentBytes := 0, mMapSize := 0, mCapacity := capacity }

/-- `C2AllocationIon::Impl::status`. -/
def C2AllocationIonImpl.status (s : C2AllocationIonImpl) : C2Error := s.mInit

/-- Outcome of an `ion_map` driver call: return code, mapped address and
the map fd it hands back. -/
structure IonMapOutcome where
  ret : Int
  addr : Nat
  mapFd : Int
deriving DecidableEq, Repr

/-- Outcome of an `mmap` OS call: success flag, mapped address, and the
errno observed on failure. -/
structure MmapOutcome where
  success : Bool
  addr : Nat
  errnoVal : Nat
deriving DecidableEq, Repr

/-- Result of `C2AllocationIon::Impl::map`: the returned error, the out
pointer (`*addr`, 0 for null), the new impl state, which underlying call
was made (`ion_map` on the driver vs `mmap` on the recorded map fd), and
the protection/flags/offset/size of the request handed to the OS. -/
structure AllocMapResult where
  err : C2Error
  addrOut : Nat
  state : C2AllocationIonImpl
  calledIonMap : Bool
  calledMmap : Bool
  reqProt : Nat
  reqFlags : Nat
  reqMapOffset : Nat
  reqMapSize : Nat
deriving DecidableEq, Repr

/-- `C2AllocationIon::Impl::map(offset, size, usage, fenceFd, addr)`:
computes protection and flags from the usage bitmasks, page-aligns the
offset, and then either acquires a mapping via `ion_map` (when no map fd
is recorded) or re-maps via `mmap` on the recorded map fd. -/
def C2AllocationIonImpl.map (s : C2AllocationIonImpl) (offset size : Nat)
    (usage : C2MemoryUsage) (ionMapO : IonMapOutcome) (mmapO : MmapOutcome) :
    AllocMapResult :=
  let prot := (if usage.mConsumer &&& GRALLOC_USAGE_SW_READ_MASK ≠ 0 then PROT_READ else 0) +
              (if usage.mProducer &&& GRALLOC_USAGE_SW_WRITE_MASK ≠ 0 then PROT_WRITE else 0)
  let flags := if usage.mProducer &&& GRALLOC_USAGE_SW_WRITE_MASK ≠ 0
               then MAP_SHARED else MAP_PRIVATE
  let alignmentBytes := offset % PAGE_SIZE
  let mapOffset := offset - alignmentBytes
  let mapSize := size + alignmentBytes
  if s.mMapFd = -1 then
    if ionMapO.ret ≠ 0 then
      { err := c2_map_errno [EINVAL] (-ionMapO.ret), addrOut := 0,
        state := { s with mMapFd := -1 },
        calledIonMap := true, calledMmap := false,
        reqProt := prot, reqFlags := flags, reqMapOffset := mapOffset,
        reqMapSize := mapSize }
    else
      let s1 := { s with mMapAddr := ionMapO.addr, mMapFd := ionMapO.mapFd,
                         mMapAlignmentBytes := alignmentBytes, mMapSize := mapSize }
      { err := C2Error.ok, addrOut := ionMapO.addr + alignmentBytes,
        state := s1,
        calledIonMap := true, calledMmap := false,
        reqProt := prot, reqFlags := flags, reqMapOffset := mapOffset,
        reqMapSize := mapSize }
  else
    if mmapO.success then
      let s1 := { s with mMapAddr := mmapO.addr,
                         mMapAlignmentBytes := alignmentBytes, mMapSize := mapSize }
      { err := C2Error.ok, addrOut := mmapO.addr + alignmentBytes,
        state := s1,
        calledIonMap := false, calledMmap := true,
        reqProt := prot, reqFlags := flags, reqMapOffset := mapOffset,
        reqMapSize := mapSize }
    else
      { err := c2_map_errno [EINVAL] (mmapO.errnoVal : Int), addrOut := 0,
        state := { s with mMapAddr := 0 },
        calledIonMap := false, calledMmap := true,
        reqProt := prot, reqFlags := flags, reqMapOffset := mapOffset,
        reqMapSize := mapSize }

/-- `C2AllocationIon::Impl::unmap(addr, size, fenceFd)`: BadValue unless
`addr` equals the recorded address plus its alignment padding and
`size + padding` equals the recorded mapped size; otherwise `munmap` the
recorded mapping (`munmapOk`/`munmapErrno` are its outcome).  The impl
state is returned alongside the error; the source never resets the
recorded mapping fields here. -/
def C2AllocationIonImpl.unmap (s : C2AllocationIonImpl) (addr size : Nat)
    (munmapOk : Bool) (munmapErrno : Nat) : C2Error × C2AllocationIonImpl :=
  if addr ≠ s.mMapAddr + s.mMapAlignmentBytes ∨
      size + s.mMapAlignmentBytes ≠ s.mMapSize then
    (C2Error.badValue, s)
  else if munmapOk = false then
    (c2_map_errno [EINVAL] (munmapErrno : Int), s)
  else
    (C2Error.ok, s)

/-- State of `C2AllocatorIon`: init status and the driver fd. -/
structure C2AllocatorIon where
  mInit : C2Error
  mIonFd : Int
deriving DecidableEq, Repr

/-- The constructor `C2AllocatorIon::C2AllocatorIon()`: records the
`ion_open` fd; when it is negative, `ENOENT` yields Unsupported and any
other errno goes through `c2_map_errno<EACCES>`. -/
def C2AllocatorIon.construct (openFd : Int) (openErrno : Nat) : C2AllocatorIon :=
  if openFd < 0 then
    { mInit := if openErrno = ENOENT then C2Error.unsupported
               else c2_map_errno [EACCES] (openErrno : Int),
      mIonFd := openFd }
  else
    { mInit := C2Error.ok, mIonFd := openFd }

/-- Result of `allocateLinearBuffer` / `recreateLinearBuffer`: the returned
error, the stored allocation (none models the null out pointer both
functions store on entry), and whether a driver call was made. -/
structure LinearAllocateResult where
  err : C2Error
  allocation : Option C2AllocationIonImpl
  driverCalled : Bool
deriving DecidableEq, Repr

/-- `C2AllocatorIon::allocateLinearBuffer`: null the out pointer, short
circuit with Unsupported on a failed allocator, otherwise construct an
allocation via `ion_alloc` and store it exactly when its status is Ok. -/
def C2AllocatorIon.allocateLinearBuffer (a : C2AllocatorIon) (capacity : Nat)
    (usage : C2MemoryUsage) (o : IonAllocOutcome) : LinearAllocateResult :=
  if a.mInit ≠ C2Error.ok then
    { err := C2Error.unsupported, allocation := none, driverCalled := false }
  else
    -- usage is accepted but unused by the source (the usage mapper is stubbed out)
    let _ := usage
    let alloc := C2AllocationIonImpl.constructAlloc a.mIonFd capacity o
    let ret := alloc.status
    { err := ret,
      allocation := if ret = C2Error.ok then some alloc else none,
      driverCalled := true }

/-- `C2AllocatorIon::recreateLinearBuffer`: null the out pointer, short
circuit with Unsupported on a failed allocator, reject invalid handles
with BadValue, otherwise construct an allocation via `ion_import` and
store it exactly when its status is Ok. -/
def C2AllocatorIon.recreateLinearBuffer (a : C2AllocatorIon)
    (handle : Option C2HandleMem) (o : IonImportOutcome) : LinearAllocateResult :=
  if a.mInit ≠ C2Error.ok then
    { err := C2Error.unsupported, allocation := none, driverCalled := false }
  else if C2HandleIon.isValid handle = false then
    { err := C2Error.badValue, allocation := none, driverCalled := false }
  else
    let alloc := C2AllocationIonImpl.constructImport a.mIonFd 0 o
    let ret := alloc.status
    { err := ret,
      allocation := if ret = C2Error.ok then some alloc else none,
      driverCalled := true }

/-- A linear range aspect: capacity with an offset/size window. -/
structure LinearRange where
  capacity : Nat
  offset : Nat
  size : Nat
deriving DecidableEq, Repr

/-- Modelled from the spec: `_C2LinearRangeAspect` construction (declared in
the C2Buffer header, which is not part of this snapshot) silently clamps
the requested window to `offset ≤ capacity` and `size ≤ capacity - offset`;
the same clamp appears verbatim in `C2ReadView::subView` in the source. -/
def mkLinearRange (capacity offset size : Nat) : LinearRange :=
  { capacity := capacity,
    offset := min offset capacity,
    size := min size (capacity - min offset capacity) }

/-- Outcome of a `C2LinearAllocation::map` call as observed by a block
impl: the returned error and the base address written to `*addr`. -/
structure MapOutcome where
  err : C2Error
  addr : Nat
deriving DecidableEq, Repr

/-- The (offset, size, usage) request a block impl hands to
`C2LinearAllocation::map`. -/
structure MapRequest where
  offset : Nat
  size : Nat
  usage : C2MemoryUsage
deriving DecidableEq, Repr

/-- State of `C2ConstLinearBlock::Impl`: recorded base pointer (none =
null), recorded mapped size, and last error (initially Corrupted). -/
structure ConstBlockImpl where
  mBase : Option Nat
  mSize : Nat
  mError : C2Error
deriving DecidableEq, Repr

/-- A freshly constructed `C2ConstLinearBlock::Impl`. -/
def ConstBlockImpl.init : ConstBlockImpl :=
  { mBase := none, mSize := 0, mError := C2Error.corrupted }

/-- `C2ConstLinearBlock::Impl::map(offset, size)`: only when no base is
recorded, call the allocation's map with software-read usage; on success
record the base and size.  Returns the new state and the request made
(none when the underlying map was not invoked). -/
def ConstBlockImpl.map (s : ConstBlockImpl) (offset size : Nat)
    (o : MapOutcome) : ConstBlockImpl × Option MapRequest :=
  if s.mBase = none then
    let req : MapRequest :=
      { offset := offset, size := size,
        usage := { mConsumer := C2MemoryUsage.kSoftwareRead, mProducer := 0 } }
    let s1 := { s with mError := o.err }
    (if o.err = C2Error.ok then { s1 with mBase := some o.addr, mSize := size }
     else s1, some req)
  else
    (s, none)

/-- State of `C2LinearBlock::Impl` (same shape as the const variant). -/
structure LinearBlockImpl where
  mBase : Option Nat
  mSize : Nat
  mError : C2Error
deriving DecidableEq, Repr

/-- A freshly constructed `C2LinearBlock::Impl`. -/
def LinearBlockImpl.init : LinearBlockImpl :=
  { mBase := none, mSize := 0, mError := C2Error.corrupted }

/-- `C2LinearBlock::Impl::map(capacity)`: only when no base is recorded,
call the allocation's map over offset 0 and the whole capacity with
software-read plus software-write usage; on success record base and
capacity. -/
def LinearBlockImpl.map (s : LinearBlockImpl) (capacity : Nat)
    (o : MapOutcome) : LinearBlockImpl × Option MapRequest :=
  if s.mBase = none then
    let req : MapRequest :=
      { offset := 0, size := capacity,
        usage := { mConsumer := C2MemoryUsage.kSoftwareRead,
                   mProducer := C2MemoryUsage.kSoftwareWrite } }
    let s1 := { s with mError := o.err }
    (if o.err = C2Error.ok then { s1 with mBase := some o.addr, mSize := capacity }
     else s1, some req)
  else
    (s, none)

/-- `C2ReadView`: capacity aspect plus data pointer (none = null) and
error. -/
structure C2ReadView where
  capacity : Nat
  mData : Option Nat
  mError : C2Error
deriving DecidableEq, Repr

/-- `C2WriteView`: editable range aspect plus base pointer (none = null)
and error. -/
structure C2WriteView where
  range : LinearRange
  mBase : Option Nat
  mError : C2Error
deriving DecidableEq, Repr

/-- `C2WriteView::base()` (0 for null). -/
def C2WriteView.base (v : C2WriteView) : Nat := v.mBase.getD 0

/-- `C2WriteView::data() = base() + offset()`. -/
def C2WriteView.data (v : C2WriteView) : Nat := v.base + v.range.offset

/-- `C2Fence` of the ION path: a placeholder that is always signaled. -/
structure C2Fence where
  signaled : Bool := true
deriving DecidableEq, Repr

/-- `C2Acquirable<C2ReadView>`: error, fence, view. -/
structure C2AcquirableRead where
  mError : C2Error
  fence : C2Fence
  view : C2ReadView
deriving DecidableEq, Repr

/-- `C2Acquirable<C2WriteView>`: error, fence, view. -/
structure C2AcquirableWrite where
  mError : C2Error
  fence : C2Fence
  view : C2WriteView
deriving DecidableEq, Repr

/-- `C2ConstLinearBlock`: identity of the shared allocation, range window,
and its own impl (mapping state). -/
structure C2ConstLinearBlock where
  allocationId : Nat
  range : LinearRange
  impl : ConstBlockImpl
deriving DecidableEq, Repr

/-- Construction of a `C2ConstLinearBlock` over an allocation with the
given capacity and requested window (clamped by the range aspect); the
impl starts unmapped. -/
def C2ConstLinearBlock.ofAlloc (allocationId allocCapacity offset size : Nat) :
    C2ConstLinearBlock :=
  { allocationId := allocationId,
    range := mkLinearRange allocCapacity offset size,
    impl := ConstBlockImpl.init }

/-- `C2ConstLinearBlock::subBlock(offset, size)` forwards to
`Impl::subBlock`, which constructs `C2ConstLinearBlock(mAllocation,
offset, size)` — a fresh block over the same allocation with a fresh
impl; the given offset is passed through as-is. -/
def C2ConstLinearBlock.subBlock (b : C2ConstLinearBlock) (offset size : Nat) :
    C2ConstLinearBlock :=
  { allocationId := b.allocationId,
    range := mkLinearRange b.range.capacity offset size,
    impl := ConstBlockImpl.init }

/-- `C2ConstLinearBlock::map()`: map the impl over this block's window;
if the recorded base is null, both the acquirable and the read view carry
the impl's error and the view is pointer-less; otherwise the view spans
the block's size starting at the recorded base. -/
def C2ConstLinearBlock.map (b : C2ConstLinearBlock) (o : MapOutcome) :
    C2AcquirableRead × C2ConstLinearBlock × Option MapRequest :=
  let p := b.impl.map b.range.offset b.range.size o
  let b1 := { b with impl := p.1 }
  match p.1.mBase with
  | none =>
      ({ mError := p.1.mError, fence := {},
         view := { capacity := 0, mData := none, mError := p.1.mError } },
       b1, p.2)
  | some base =>
      ({ mError := p.1.mError, fence := {},
         view := { capacity := b.range.size, mData := some base,
                   mError := C2Error.ok } },
       b1, p.2)

/-- `C2LinearBlock`: identity of the shared allocation, range window, and
its own impl (mapping state). -/
structure C2LinearBlock where
  allocationId : Nat
  range : LinearRange
  impl : LinearBlockImpl
deriving DecidableEq, Repr

/-- Construction of a `C2LinearBlock` over an allocation. -/
def C2LinearBlock.ofAlloc (allocationId allocCapacity offset size : Nat) :
    C2LinearBlock :=
  { allocationId := allocationId,
    range := mkLinearRange allocCapacity offset size,
    impl := LinearBlockImpl.init }

/-- `C2LinearBlock::map()`: map the impl over the whole capacity; on a
null base return an error-carrying write view, otherwise a write view
that inherits this block's range aspect (then has its offset and size
set to the block's own, which are the same values) over the recorded
base. -/
def C2LinearBlock.map (b : C2LinearBlock) (o : MapOutcome) :
    C2AcquirableWrite × C2LinearBlock × Option MapRequest :=
  let p := b.impl.map b.range.capacity o
  let b1 := { b with impl := p.1 }
  match p.1.mBase with
  | none =>
      ({ mError := p.1.mError, fence := {},
         view := { range := { capacity := 0, offset := 0, size := 0 },
                   mBase := none, mError := p.1.mError } },
       b1, p.2)
  | some base =>
      ({ mError := p.1.mError, fence := {},
         view := { range := { capacity := b.range.capacity,
                              offset := b.range.offset, size := b.range.size },
                   mBase := some base, mError := C2Error.ok } },
       b1, p.2)

/-! ## Theorems -/

/-- C2: the errno-to-domain-error mapping, instantiated with every errno of
the fixed table, is the total deterministic function sending 0 to Ok,
EINVAL to BadValue, EACCES and EPERM to NoPermission, ENOMEM to NoMemory,
and every other nonzero value to Corrupted. -/
theorem c2_map_errno_table_characterization (r : Int) :
    c2_map_errno [EINVAL, EACCES, EPERM, ENOMEM] r =
      (if r = 0 then C2Error.ok
       else if r = ((EINVAL : Nat) : Int) then C2Error.badValue
       else if r = ((EACCES : Nat) : Int) ∨ r = ((EPERM : Nat) : Int) then C2Error.noPermission
       else if r = ((ENOMEM : Nat) : Int) then C2Error.noMemory
       else C2Error.corrupted) := by
  simp only [c2_map_errno, c2_errno2error, EINVAL, EACCES, EPERM, ENOMEM]
  norm_num
  split_ifs <;> simp_all

/-- Helper: the single-entry EACCES instantiation of the errno map never
returns Ok on a nonzero errno. -/
theorem c2_map_errno_eacces_ne_ok (e : Nat) (he : e ≠ 0) :
    c2_map_errno [EACCES] (e : Int) ≠ C2Error.ok := by
  simp only [c2_map_errno, c2_errno2error, EACCES]
  have h0 : ((e : Nat) : Int) ≠ 0 := by exact_mod_cast he
  split_ifs <;> simp_all

/-- C1: when the driver open fails (negative fd, nonzero errno), the
allocator's status is permanently not Ok, every allocateLinearBuffer and
recreateLinearBuffer call returns Unsupported without any driver call, and
an ENOENT failure yields status Unsupported. -/
theorem allocatorIon_construct_failure_permanent
    (openFd : Int) (openErrno : Nat) (hfd : openFd < 0) (herr : openErrno ≠ 0) :
    (C2AllocatorIon.construct openFd openErrno).mInit ≠ C2Error.ok ∧
    (∀ capacity usage o,
      (C2AllocatorIon.construct openFd openErrno).allocateLinearBuffer capacity usage o =
        { err := C2Error.unsupported, allocation := none, driverCalled := false }) ∧
    (∀ handle o,
      (C2AllocatorIon.construct openFd openErrno).recreateLinearBuffer handle o =
        { err := C2Error.unsupported, allocation := none, driverCalled := false }) ∧
    (openErrno = ENOENT →
      (C2AllocatorIon.construct openFd openErrno).mInit = C2Error.unsupported) := by
  have hne : (C2AllocatorIon.construct openFd openErrno).mInit ≠ C2Error.ok := by
    simp only [C2AllocatorIon.construct, if_pos hfd]
    by_cases h2 : openErrno = ENOENT
    · simp [h2]
    · simp only [h2, if_false]
      exact c2_map_errno_eacces_ne_ok openErrno herr
  refine ⟨hne, ?_, ?_, ?_⟩
  · intro capacity usage o
    simp [C2AllocatorIon.allocateLinearBuffer, hne]
  · intro handle o
    simp [C2AllocatorIon.recreateLinearBuffer, hne]
  · intro h2
    simp [C2AllocatorIon.construct, if_pos hfd, h2]

/-- Witness for C1: a driver open failing with fd -1 and errno ENOENT. -/
theorem allocatorIon_construct_failure_permanent_witness :
    (C2AllocatorIon.construct (-1) ENOENT).mInit ≠ C2Error.ok ∧
    (∀ capacity usage o,
      (C2AllocatorIon.construct (-1) ENOENT).allocateLinearBuffer capacity usage o =
        { err := C2Error.unsupported, allocation := none, driverCalled := false }) ∧
    (∀ handle o,
      (C2AllocatorIon.construct (-1) ENOENT).recreateLinearBuffer handle o =
        { err := C2Error.unsupported, allocation := none, driverCalled := false }) ∧
    (ENOENT = ENOENT →
      (C2AllocatorIon.construct (-1) ENOENT).mInit = C2Error.unsupported) :=
  allocatorIon_construct_failure_permanent (-1) ENOENT (by decide) (by decide)

/-- C3: the ION handle validity check fails exactly on a null handle, a
header field differing from the expected constants, or a wrong magic; and
a working allocator's recreateLinearBuffer answers BadValue with no stored
allocation and no driver call on every handle failing the check. -/
theorem handleIon_isValid_characterization
    (o : Option C2HandleMem) (a : C2AllocatorIon) (imp : IonImportOutcome) :
    (C2HandleIon.isValid o = false ↔
      o = none ∨ ∃ h, o = some h ∧
        (h.version ≠ ionVersion ∨ h.numFds ≠ ionNumFds ∨
         h.numInts ≠ ionNumInts ∨ h.int0 ≠ kMagic)) ∧
    (a.mInit = C2Error.ok → C2HandleIon.isValid o = false →
      a.recreateLinearBuffer o imp =
        { err := C2Error.badValue, allocation := none, driverCalled := false }) := by
  constructor
  · cases o with
    | none => simp [C2HandleIon.isValid]
    | some h =>
        simp [C2HandleIon.isValid]
        tauto
  · intro ha hv
    simp [C2AllocatorIon.recreateLinearBuffer, ha, hv]

/-- Witness for C3: a handle with correct header but wrong magic is
rejected with BadValue by a working allocator. -/
theorem handleIon_isValid_characterization_witness :
    (C2AllocatorIon.construct 3 0).recreateLinearBuffer
        (some { version := ionVersion, numFds := ionNumFds, numInts := ionNumInts,
                fd0 := 3, fd1 := 7, int0 := 0 }) { ret := 0, buffer := 9 } =
      { err := C2Error.badValue, allocation := none, driverCalled := false } :=
  (handleIon_isValid_characterization
      (some { version := ionVersion, numFds := ionNumFds, numInts := ionNumInts,
              fd0 := 3, fd1 := 7, int0 := 0 })
      (C2AllocatorIon.construct 3 0) { ret := 0, buffer := 9 }).2
    (by decide) (by decide)

/-- C10: both allocateLinearBuffer and recreateLinearBuffer store a
non-null allocation exactly when they return Ok (on any error the stored
allocation is none). -/
theorem allocate_recreate_allocation_iff_ok
    (a : C2AllocatorIon) (capacity : Nat) (usage : C2MemoryUsage)
    (ao : IonAllocOutcome) (handle : Option C2HandleMem) (io : IonImportOutcome) :
    ((a.allocateLinearBuffer capacity usage ao).allocation ≠ none ↔
      (a.allocateLinearBuffer capacity usage ao).err = C2Error.ok) ∧
    ((a.recreateLinearBuffer handle io).allocation ≠ none ↔
      (a.recreateLinearBuffer handle io).err = C2Error.ok) := by
  constructor
  · simp only [C2AllocatorIon.allocateLinearBuffer]
    split_ifs <;> simp_all
  · simp only [C2AllocatorIon.recreateLinearBuffer]
    split_ifs <;> simp_all

/-- A concrete mapped impl state (map fd 5, address 4096, alignment
padding 10, mapped size 110) used to demonstrate the unmap behavior. -/
def unmapDemoState : C2AllocationIonImpl :=
  { mInit := C2Error.ok, ionFd := 3, buffer := 7, mMapFd := 5, mMapAddr := 4096,
    mMapAlignmentBytes := 10, mMapSize := 110, mCapacity := 100 }

/-- C4 counterexample: an unmap with a matching (address, size) pair
succeeds, yet the recorded mapping state is left fully intact — the map
fd, address, padding and size are not cleared. -/
theorem unmap_matching_does_not_clear_state :
    C2AllocationIonImpl.unmap unmapDemoState 4106 100 true 0 =
      (C2Error.ok, unmapDemoState) ∧
    unmapDemoState.mMapAddr = 4096 ∧ unmapDemoState.mMapFd = 5 ∧
    unmapDemoState.mMapSize = 110 := by decide

/-- C4 (amended): unmap returns BadValue on a mismatched (address, size)
pair (address must equal the recorded address plus the alignment padding
and size plus the padding must equal the recorded mapped size); on a
matching pair with the OS munmap succeeding it returns Ok; in every case
the recorded mapping state is left unchanged, never cleared. -/
theorem unmap_badValue_iff_mismatch
    (s : C2AllocationIonImpl) (addr size : Nat) (mo : Bool) (me : Nat) :
    ((addr ≠ s.mMapAddr + s.mMapAlignmentBytes ∨
        size + s.mMapAlignmentBytes ≠ s.mMapSize) →
      C2AllocationIonImpl.unmap s addr size mo me = (C2Error.badValue, s)) ∧
    ((addr = s.mMapAddr + s.mMapAlignmentBytes ∧
        size + s.mMapAlignmentBytes = s.mMapSize ∧ mo = true) →
      C2AllocationIonImpl.unmap s addr size mo me = (C2Error.ok, s)) ∧
    (C2AllocationIonImpl.unmap s addr size mo me).2 = s := by
  unfold C2AllocationIonImpl.unmap
  refine ⟨fun h => by simp [h], fun h => ?_, ?_⟩
  · obtain ⟨h1, h2, h3⟩ := h
    have hn : ¬(addr ≠ s.mMapAddr + s.mMapAlignmentBytes ∨
        size + s.mMapAlignmentBytes ≠ s.mMapSize) := by
      push_neg
      exact ⟨h1, h2⟩
    simp [hn, h3]
  · split_ifs <;> rfl

/-- Witness for C4 (amended): a mismatched pair answers BadValue and a
matching pair answers Ok on the demonstration state. -/
theorem unmap_badValue_iff_mismatch_witness :
    C2AllocationIonImpl.unmap unmapDemoState 0 0 true 0 =
      (C2Error.badValue, unmapDemoState) ∧
    C2AllocationIonImpl.unmap unmapDemoState 4106 100 true 0 =
      (C2Error.ok, unmapDemoState) :=
  ⟨(unmap_badValue_iff_mismatch unmapDemoState 0 0 true 0).1 (by decide),
   (unmap_badValue_iff_mismatch unmapDemoState 4106 100 true 0).2.1 (by decide)⟩

/-- A concrete const block whose impl has already recorded base 4096. -/
def constBlockDemo : C2ConstLinearBlock :=
  { allocationId := 1, range := mkLinearRange 100 10 50,
    impl := { mBase := some 4096, mSize := 50, mError := C2Error.ok } }

/-- A concrete mutable block whose impl has already recorded base 8192. -/
def linearBlockDemo : C2LinearBlock :=
  { allocationId := 1, range := mkLinearRange 100 0 100,
    impl := { mBase := some 8192, mSize := 100, mError := C2Error.ok } }

/-- C5: once a block's impl has recorded a non-null base, a further map()
call leaves the block (base, size, error) unchanged, makes no call into
the allocation's map, and the returned view carries the recorded base —
for the const and the mutable block alike. -/
theorem block_map_idempotent
    (cb : C2ConstLinearBlock) (lb : C2LinearBlock) (b c : Nat)
    (hc : cb.impl.mBase = some b) (hl : lb.impl.mBase = some c)
    (o1 o2 : MapOutcome) :
    (cb.map o1).2.1 = cb ∧ (cb.map o1).2.2 = none ∧
    (cb.map o1).1.view.mData = some b ∧
    (lb.map o2).2.1 = lb ∧ (lb.map o2).2.2 = none ∧
    (lb.map o2).1.view.mBase = some c := by
  unfold C2ConstLinearBlock.map C2LinearBlock.map ConstBlockImpl.map LinearBlockImpl.map
  simp [hc, hl]

/-- Witness for C5: both demonstration blocks are unchanged by a second
map() and return their recorded bases. -/
theorem block_map_idempotent_witness :
    (constBlockDemo.map { err := C2Error.ok, addr := 1 }).2.1 = constBlockDemo ∧
    (constBlockDemo.map { err := C2Error.ok, addr := 1 }).2.2 = none ∧
    (constBlockDemo.map { err := C2Error.ok, addr := 1 }).1.view.mData = some 4096 ∧
    (linearBlockDemo.map { err := C2Error.ok, addr := 2 }).2.1 = linearBlockDemo ∧
    (linearBlockDemo.map { err := C2Error.ok, addr := 2 }).2.2 = none ∧
    (linearBlockDemo.map { err := C2Error.ok, addr := 2 }).1.view.mBase = some 8192 :=
  block_map_idempotent constBlockDemo linearBlockDemo 4096 8192 rfl rfl
    { err := C2Error.ok, addr := 1 } { err := C2Error.ok, addr := 2 }

/-- A concrete impl state with a recorded map fd (5) and an established
mapping at address 4096 of size 4096 with no padding. -/
def mapDemoState : C2AllocationIonImpl :=
  { mInit := C2Error.ok, ionFd := 3, buffer := 7, mMapFd := 5, mMapAddr := 4096,
    mMapAlignmentBytes := 0, mMapSize := 4096, mCapacity := 4096 }

/-- The result of calling map(100, 50, software-read) on `mapDemoState`
when the mmap on the recorded fd succeeds at address 8192. -/
def mapDemoResult : AllocMapResult :=
  C2AllocationIonImpl.map mapDemoState 100 50
    { mConsumer := C2MemoryUsage.kSoftwareRead, mProducer := 0 }
    { ret := 0, addr := 0, mapFd := -1 }
    { success := true, addr := 8192, errnoVal := 0 }

/-- C6 counterexample: with a mapped fd recorded, a further map call does
go through the recorded mapped-fd path (an mmap on that fd) and the
recorded mapping state is overwritten, not left unchanged. -/
theorem map_with_recorded_fd_not_noop :
    mapDemoResult.calledMmap = true ∧
    mapDemoResult.state.mMapAddr = 8192 ∧
    mapDemoResult.state.mMapAlignmentBytes = 100 ∧
    mapDemoResult.state ≠ mapDemoState := by decide

/-- C6 (amended): when a mapped fd is recorded, map never calls the
driver's ion_map; it performs an mmap on the recorded mapped fd and, on
success, overwrites the recorded mapping state with the new address,
alignment padding and size. -/
theorem map_with_recorded_fd_uses_mmap
    (s : C2AllocationIonImpl) (h : s.mMapFd ≠ -1)
    (offset size : Nat) (usage : C2MemoryUsage)
    (io : IonMapOutcome) (mo : MmapOutcome) :
    (s.map offset size usage io mo).calledIonMap = false ∧
    (s.map offset size usage io mo).calledMmap = true ∧
    (mo.success = true →
      (s.map offset size usage io mo).state =
        { s with mMapAddr := mo.addr,
                 mMapAlignmentBytes := offset % PAGE_SIZE,
                 mMapSize := size + offset % PAGE_SIZE }) := by
  unfold C2AllocationIonImpl.map
  cases hmo : mo.success <;> simp [h, hmo]

/-- Witness for C6 (amended): the demonstration call avoids ion_map, goes
through mmap on the recorded fd, and rewrites the mapping state. -/
theorem map_with_recorded_fd_uses_mmap_witness :
    (C2AllocationIonImpl.map mapDemoState 100 50
        { mConsumer := C2MemoryUsage.kSoftwareRead, mProducer := 0 }
        { ret := 0, addr := 0, mapFd := -1 }
        { success := true, addr := 8192, errnoVal := 0 }).calledIonMap = false ∧
    (C2AllocationIonImpl.map mapDemoState 100 50
        { mConsumer := C2MemoryUsage.kSoftwareRead, mProducer := 0 }
        { ret := 0, addr := 0, mapFd := -1 }
        { success := true, addr := 8192, errnoVal := 0 }).calledMmap = true ∧
    ((true : Bool) = true →
      (C2AllocationIonImpl.map mapDemoState 100 50
          { mConsumer := C2MemoryUsage.kSoftwareRead, mProducer := 0 }
          { ret := 0, addr := 0, mapFd := -1 }
          { success := true, addr := 8192, errnoVal := 0 }).state =
        { mapDemoState with mMapAddr := 8192,
                            mMapAlignmentBytes := 100 % PAGE_SIZE,
                            mMapSize := 50 + 100 % PAGE_SIZE }) :=
  map_with_recorded_fd_uses_mmap mapDemoState (by decide) 100 50
    { mConsumer := C2MemoryUsage.kSoftwareRead, mProducer := 0 }
    { ret := 0, addr := 0, mapFd := -1 }
    { success := true, addr := 8192, errnoVal := 0 }

/-- C7: on a mutable block whose impl is unmapped and whose mapping call
succeeds, map() requests the whole allocation capacity from offset 0 with
software-read plus software-write usage, and the returned write view is
bound to the block's own window: its offset and size are the block's, its
base is the mapped address, and its data pointer is base plus the view's
offset. -/
theorem linearBlock_map_full_capacity_bound
    (blk : C2LinearBlock) (o : MapOutcome)
    (hb : blk.impl.mBase = none) (ho : o.err = C2Error.ok) :
    (blk.map o).2.2 = some ⟨0, blk.range.capacity,
      ⟨C2MemoryUsage.kSoftwareRead, C2MemoryUsage.kSoftwareWrite⟩⟩ ∧
    (blk.map o).1.view.range.offset = blk.range.offset ∧
    (blk.map o).1.view.range.size = blk.range.size ∧
    (blk.map o).1.view.mBase = some o.addr ∧
    (blk.map o).1.view.data = o.addr + blk.range.offset := by
  unfold C2LinearBlock.map LinearBlockImpl.map
  simp [hb, ho, C2WriteView.data, C2WriteView.base]

/-- Witness for C7: a fresh block over a 100-byte allocation windowed at
(10, 50) whose mapping succeeds at address 4096. -/
theorem linearBlock_map_full_capacity_bound_witness :
    ((C2LinearBlock.ofAlloc 1 100 10 50).map { err := C2Error.ok, addr := 4096 }).2.2 =
      some ⟨0, (C2LinearBlock.ofAlloc 1 100 10 50).range.capacity,
        ⟨C2MemoryUsage.kSoftwareRead, C2MemoryUsage.kSoftwareWrite⟩⟩ ∧
    ((C2LinearBlock.ofAlloc 1 100 10 50).map
        { err := C2Error.ok, addr := 4096 }).1.view.range.offset =
      (C2LinearBlock.ofAlloc 1 100 10 50).range.offset ∧
    ((C2LinearBlock.ofAlloc 1 100 10 50).map
        { err := C2Error.ok, addr := 4096 }).1.view.range.size =
      (C2LinearBlock.ofAlloc 1 100 10 50).range.size ∧
    ((C2LinearBlock.ofAlloc 1 100 10 50).map
        { err := C2Error.ok, addr := 4096 }).1.view.mBase = some 4096 ∧
    ((C2LinearBlock.ofAlloc 1 100 10 50).map
        { err := C2Error.ok, addr := 4096 }).1.view.data =
      4096 + (C2LinearBlock.ofAlloc 1 100 10 50).range.offset :=
  linearBlock_map_full_capacity_bound (C2LinearBlock.ofAlloc 1 100 10 50)
    { err := C2Error.ok, addr := 4096 } (by decide) (by decide)

/-- C8 counterexample: the sub-block of a block windowed at offset 10,
taken at relative offset 5, has absolute offset 5 — not the parent's
offset plus 5 (which would be 15). -/
theorem subBlock_offset_not_relative :
    ¬(((C2ConstLinearBlock.ofAlloc 1 100 10 50).subBlock 5 20).range.offset =
       (C2ConstLinearBlock.ofAlloc 1 100 10 50).range.offset + 5) := by decide

/-- C8 (amended): subBlock(offset, size) produces a fresh, unmapped block
over the same allocation whose range is the given pair interpreted
absolutely against the whole allocation — the parent's own offset is not
added and the parent's window plays no part — clamped against the
allocation capacity by the range-aspect construction. -/
theorem subBlock_absolute (aid cap pOff pSz off sz : Nat) :
    (C2ConstLinearBlock.ofAlloc aid cap pOff pSz).subBlock off sz =
      { allocationId := aid, range := mkLinearRange cap off sz,
        impl := ConstBlockImpl.init } := rfl

/-- C9: const-block map() never reports mapping failure through its own
return channel: starting unmapped, if the underlying mapping fails the
returned acquirable carries the error and a pointer-less read view
carrying the same error; if it succeeds the acquirable carries Ok and a
read view over the mapped base with capacity the block's size. -/
theorem constBlock_map_error_via_view
    (blk : C2ConstLinearBlock) (o : MapOutcome) (hb : blk.impl.mBase = none) :
    (o.err ≠ C2Error.ok →
      (blk.map o).1.mError = o.err ∧
      (blk.map o).1.view.mData = none ∧
      (blk.map o).1.view.mError = o.err) ∧
    (o.err = C2Error.ok →
      (blk.map o).1.mError = C2Error.ok ∧
      (blk.map o).1.view.mData = some o.addr ∧
      (blk.map o).1.view.capacity = blk.range.size ∧
      (blk.map o).1.view.mError = C2Error.ok) := by
  unfold C2ConstLinearBlock.map ConstBlockImpl.map
  constructor
  · intro he
    simp [hb, he]
  · intro he
    simp [hb, he]

/-- Witness for C9: a fresh const block mapped with a failing outcome
(Corrupted) and with a succeeding outcome at address 4096. -/
theorem constBlock_map_error_via_view_witness :
    (((C2ConstLinearBlock.ofAlloc 1 100 10 50).map
        { err := C2Error.corrupted, addr := 0 }).1.mError = C2Error.corrupted ∧
     ((C2ConstLinearBlock.ofAlloc 1 100 10 50).map
        { err := C2Error.corrupted, addr := 0 }).1.view.mData = none ∧
     ((C2ConstLinearBlock.ofAlloc 1 100 10 50).map
        { err := C2Error.corrupted, addr := 0 }).1.view.mError = C2Error.corrupted) ∧
    (((C2ConstLinearBlock.ofAlloc 1 100 10 50).map
        { err := C2Error.ok, addr := 4096 }).1.mError = C2Error.ok ∧
     ((C2ConstLinearBlock.ofAlloc 1 100 10 50).map
        { err := C2Error.ok, addr := 4096 }).1.view.mData = some 4096 ∧
     ((C2ConstLinearBlock.ofAlloc 1 100 10 50).map
        { err := C2Error.ok, addr := 4096 }).1.view.capacity =
       (C2ConstLinearBlock.ofAlloc 1 100 10 50).range.size ∧
     ((C2ConstLinearBlock.ofAlloc 1 100 10 50).map
        { err := C2Error.ok, addr := 4096 }).1.view.mError = C2Error.ok) :=
  ⟨(constBlock_map_error_via_view (C2ConstLinearBlock.ofAlloc 1 100 10 50)
      { err := C2Error.corrupted, addr := 0 } (by decide)).1 (by decide),
   (constBlock_map_error_via_view (C2ConstLinearBlock.ofAlloc 1 100 10 50)
      { err := C2Error.ok, addr := 4096 } (by decide)).2 (by decide)⟩
